import Mathlib

/-!
Verification development for the FoodRankr backend (src/main.py, src/schemas.py).

The handlers of `main.py` are embedded as pure Lean functions over an explicit
store state.  MongoDB documents become Lean structures (one per collection of
`schemas.py`), the database becomes a `Store` of lists, `datetime` becomes an
integer number of seconds, and object ids become strings.  A handler that can
raise an `HTTPException` returns a `PyResult`; an exception that no handler
catches (for example `bson.errors.InvalidId` from `ObjectId(...)`) is the
distinct outcome `PyResult.crash`, since the web framework turns it into a
500 response rather than the handler's own error.
-/

namespace FoodRankr

/-- Python string truthiness fallback `a or b` for an optional string. -/
def pyStrOr (o : Option String) (d : String) : String :=
  match o with
  | none => d
  | some s => if s.isEmpty then d else s

/-- Hex-digit test used by object-id validation. -/
def isHexChar (c : Char) : Bool :=
  c.isDigit || (('a' ≤ c) && (c ≤ 'f')) || (('A' ≤ c) && (c ≤ 'F'))

/-- Models `bson.ObjectId.is_valid` on a string argument: a 24-character
hexadecimal string is a well-formed object id.  `bson` is an external
library; this is its documented behaviour for string inputs. -/
def isValidObjectId (s : String) : Bool :=
  s.length == 24 && s.toList.all isHexChar

/-- A `fastapi.HTTPException`: status code and detail message. -/
structure HTTPError where
  status : Nat
  detail : String
deriving DecidableEq, Repr

/-- Outcome of a request handler: a value, a raised `HTTPException`, or an
exception that no handler catches (surfaced by the framework as a 500). -/
inductive PyResult (α : Type) where
  | ok (a : α)
  | err (e : HTTPError)
  | crash
deriving DecidableEq, Repr

/-- The `credentials_exception` of `get_current_user` (main.py line 115). -/
def credentials_exception : HTTPError :=
  { status := 401, detail := "Could not validate credentials" }

/-- A JWT as the data it carries: the optional `sub` claim, the optional
`exp` claim (seconds), and the key the token was signed with.  Signature
verification succeeds exactly when the token's key equals the decoding key. -/
structure JwtToken where
  sub : Option String
  exp : Option Int
  key : String
deriving DecidableEq, Repr

/-- Default secret key (main.py line 17). -/
def SECRET_KEY : String := "supersecretkey"

/-- main.py line 19: `ACCESS_TOKEN_EXPIRE_MINUTES = 60 * 24`. -/
def ACCESS_TOKEN_EXPIRE_MINUTES : Int := 60 * 24

/-- A document of the `user` collection (schemas.py `User`), with its
store-assigned `_id`. -/
structure UserR where
  id : String
  email : String
  hashed_password : String
  full_name : String
  country : String
  company_id : Option String
  cafe_name : Option String
  is_admin : Bool
  created_at : Int
  updated_at : Int
deriving DecidableEq, Repr

/-- A document of the `company` collection (schemas.py `Company`). -/
structure CompanyR where
  id : String
  name : String
  country : String
  approved : Bool
  created_by : Option String
  created_at : Int
  updated_at : Int
deriving DecidableEq, Repr

/-- A document of the `pendingcompanyrequest` collection
(schemas.py `PendingCompanyRequest`). -/
structure PendingR where
  name : String
  country : String
  requested_by : Option String
  approved : Bool
  created_at : Int
  updated_at : Int
deriving DecidableEq, Repr

/-- A document of the `foodrank` collection (schemas.py `FoodRank`). -/
structure RankR where
  user_id : String
  company_id : String
  cafe_name : String
  country : String
  rdate : String
  dish : String
  rating : Int
  image_url : Option String
  comment : Option String
  created_at : Int
  updated_at : Int
deriving DecidableEq, Repr

/-- The database: one insertion-ordered list per collection. -/
structure Store where
  users : List UserR
  companies : List CompanyR
  pending : List PendingR
  ranks : List RankR
deriving DecidableEq, Repr

def emptyStore : Store := { users := [], companies := [], pending := [], ranks := [] }

/-- `db["user"].find_one({"email": email})` (main.py line 95). -/
def findUserByEmail (s : Store) (email : String) : Option UserR :=
  s.users.find? (fun u => u.email == email)

/-- `db["user"].find_one({"_id": ObjectId(user_id)})` (main.py line 123). -/
def findUserById (s : Store) (uid : String) : Option UserR :=
  s.users.find? (fun u => u.id == uid)

/-- `db["company"].find_one({"_id": ObjectId(cid)})`. -/
def findCompanyById (s : Store) (cid : String) : Option CompanyR :=
  s.companies.find? (fun c => c.id == cid)

/-- `db["company"].find_one({"name": name})` (main.py line 155). -/
def findCompanyByName (s : Store) (name : String) : Option CompanyR :=
  s.companies.find? (fun c => c.name == name)

/-- `db["company"].find_one({"name": name, "country": country})` (main.py line 219). -/
def findCompanyByNameCountry (s : Store) (name country : String) : Option CompanyR :=
  s.companies.find? (fun c => c.name == name && c.country == country)

/-- Modelled from the spec: the Credential Store's `hash` (§4.1, passlib
bcrypt) is an external salted one-way primitive; no claim depends on its
internals, so it is modelled as a tagging of the input. -/
def get_password_hash (password : String) : String :=
  "bcrypt:" ++ password

/-- `create_access_token` (main.py lines 86-91).  `data` is always the
dictionary `{"sub": subject}` at both call sites, so the subject is the
parameter.  Note the Python expression `expires_delta or timedelta(...)`:
a zero `timedelta` is falsy, so a zero delta falls back to the default. -/
def create_access_token (subject : String) (now : Int) (expires_delta : Option Int) : JwtToken :=
  let expire := now + (match expires_delta with
    | some d => if d == 0 then ACCESS_TOKEN_EXPIRE_MINUTES * 60 else d
    | none => ACCESS_TOKEN_EXPIRE_MINUTES * 60)
  { sub := subject, exp := some expire, key := SECRET_KEY }

/-- Modelled from the spec: `jose.jwt.decode` is an external collaborator
whose contract is §4.2 — validation fails when the signature does not
verify or when the current time is at or after `expires_at`, with no
leeway.  On success it returns the payload, here its `sub` claim. -/
def decodeJwt (tok : JwtToken) (key : String) (now : Int) : Option (Option String) :=
  if tok.key == key then
    match tok.exp with
    | some e => if e ≤ now then none else some tok.sub
    | none => some tok.sub
  else none

/-- `get_current_user` (main.py lines 114-126).  A `JWTError` from decoding
and a missing `sub` claim both raise the 401 `credentials_exception`; the
id lookup failing raises the same exception.  `ObjectId(user_id)` on a
string that is not a well-formed object id raises `bson.errors.InvalidId`
outside the `try`, which nothing catches: that path is `crash`. -/
def get_current_user (s : Store) (tok : JwtToken) (now : Int) : PyResult UserR :=
  match decodeJwt tok SECRET_KEY now with
  | none => .err credentials_exception
  | some subClaim =>
    match subClaim with
    | none => .err credentials_exception
    | some uid =>
      if isValidObjectId uid then
        match findUserById s uid with
        | none => .err credentials_exception
        | some u => .ok u
      else .crash

/-- The dictionary built by `serialize_user` (main.py lines 98-111):
every field of the user document except `hashed_password`. -/
structure SerializedUser where
  id : String
  email : String
  full_name : String
  country : String
  company_id : Option String
  cafe_name : Option String
  is_admin : Bool
  created_at : Int
  updated_at : Int
deriving DecidableEq, Repr

/-- `serialize_user` (main.py lines 98-111), including the `if not user:
return None` guard on a missing document. -/
def serialize_user : Option UserR → Option SerializedUser
  | none => none
  | some u => some
    { id := u.id, email := u.email, full_name := u.full_name, country := u.country,
      company_id := u.company_id, cafe_name := u.cafe_name, is_admin := u.is_admin,
      created_at := u.created_at, updated_at := u.updated_at }

/-- `GET /auth/me` (main.py lines 194-196): resolve the caller, then
serialize the resolved user. -/
def me (s : Store) (tok : JwtToken) (now : Int) : PyResult (Option SerializedUser) :=
  match get_current_user s tok now with
  | .ok u => .ok (serialize_user (some u))
  | .err e => .err e
  | .crash => .crash

/-- `GET /user/profile` (main.py lines 245-247): identical to `/auth/me`. -/
def get_profile (s : Store) (tok : JwtToken) (now : Int) : PyResult (Option SerializedUser) :=
  match get_current_user s tok now with
  | .ok u => .ok (serialize_user (some u))
  | .err e => .err e
  | .crash => .crash

/-- The request body of `POST /auth/register` (main.py `RegisterModel`). -/
structure RegisterModel where
  email : String
  password : String
  full_name : String
  country : String
  company : Option String
  cafe_name : Option String
deriving DecidableEq, Repr

/-- The `pendingcompanyrequest` document inserted by `register`
(main.py lines 159-166): requester unset, `approved = False`. -/
def pending_doc (name country : String) (now : Int) : PendingR :=
  { name := name, country := country, requested_by := none, approved := false,
    created_at := now, updated_at := now }

/-- The company-resolution block of `register` (main.py lines 150-166),
reached only when `payload.company` is truthy: try the reference as an
object id, fall back to an exact-name lookup, and on no match insert one
`pendingcompanyrequest` document.  Returns the resolved company id (if
any) and the new pending collection. -/
def registerCompanyResolution (s : Store) (company country : String) (now : Int) :
    Option String × List PendingR :=
  let compById := if isValidObjectId company then findCompanyById s company else none
  let comp := match compById with
    | some c => some c
    | none => findCompanyByName s company
  match comp with
  | some c => (some c.id, s.pending)
  | none => (none, s.pending ++ [pending_doc company country now])

/-- The `user_doc` dictionary inserted by `register` (main.py lines
168-178): never an admin, hashed password, resolved company id. -/
def user_doc (p : RegisterModel) (freshId : String) (companyId : Option String)
    (now : Int) : UserR :=
  { id := freshId, email := p.email, hashed_password := get_password_hash p.password,
    full_name := p.full_name, country := p.country, company_id := companyId,
    cafe_name := p.cafe_name, is_admin := false, created_at := now, updated_at := now }

/-- `register` (main.py lines 141-182).  `freshId` is the object id the
store assigns to the inserted user (`result.inserted_id`).  Note the guard
`if payload.company:` — an empty-string company reference is falsy, so it
triggers neither a lookup nor a pending request. -/
def register (s : Store) (p : RegisterModel) (freshId : String) (now : Int) :
    Store × PyResult JwtToken :=
  match findUserByEmail s p.email with
  | some _ => (s, .err { status := 400, detail := "Email already registered" })
  | none =>
    let res := match p.company with
      | none => ((none : Option String), s.pending)
      | some c => if c.isEmpty then (none, s.pending) else registerCompanyResolution s c p.country now
    ({ s with users := s.users ++ [user_doc p freshId res.1 now], pending := res.2 },
     .ok (create_access_token freshId now none))

/-- The request body of `POST /companies` (main.py `CompanyCreateModel`). -/
structure CompanyCreateModel where
  name : String
  country : String
deriving DecidableEq, Repr

/-- `create_company` (main.py lines 215-231): the caller `user` is already
resolved.  `approved` is `bool(user.get("is_admin"))`; a company with the
same name and country is a 400 conflict. -/
def create_company (s : Store) (user : UserR) (d : CompanyCreateModel)
    (freshId : String) (now : Int) : Store × PyResult CompanyR :=
  let approved_flag := user.is_admin
  match findCompanyByNameCountry s d.name d.country with
  | some _ => (s, .err { status := 400, detail := "Company already exists" })
  | none =>
    let doc : CompanyR :=
      { id := freshId, name := d.name, country := d.country, approved := approved_flag,
        created_by := some user.id, created_at := now, updated_at := now }
    ({ s with companies := s.companies ++ [doc] }, .ok doc)

/-- The request body of `PUT /user/profile` (main.py `ProfileUpdateModel`). -/
structure ProfileUpdateModel where
  country : Option String
  company_id : Option String
  cafe_name : Option String
  full_name : Option String
deriving DecidableEq, Repr

/-- `db["user"].update_one({"_id": ...}, {"$set": ...})`: replace the first
document with the given id. -/
def updateFirstUser (users : List UserR) (uid : String) (u2 : UserR) : List UserR :=
  match users with
  | [] => []
  | v :: rest => if v.id == uid then u2 :: rest else v :: updateFirstUser rest uid u2

/-- `update_profile` (main.py lines 249-271).  The basic fields are staged
whenever present (`is not None`).  A supplied `company_id` is checked with
`if data.company_id and not ObjectId.is_valid(...)`: an empty string is
falsy, so it skips that 400 and reaches `ObjectId(data.company_id)`, which
raises an uncaught `InvalidId` — the `crash` outcome.  A well-formed id
whose company is missing or unapproved is the 400 "Company not approved".
With no staged update the handler returns without touching the store;
otherwise `updated_at` is bumped and the user document rewritten. -/
def update_profile (s : Store) (user : UserR) (d : ProfileUpdateModel) (now : Int) :
    Store × PyResult UserR :=
  let anyBasic := d.country.isSome || d.cafe_name.isSome || d.full_name.isSome
  let u1 : UserR :=
    { user with
      country := d.country.getD user.country,
      cafe_name := match d.cafe_name with | some c => some c | none => user.cafe_name,
      full_name := d.full_name.getD user.full_name }
  match d.company_id with
  | none =>
    if anyBasic then
      let u2 := { u1 with updated_at := now }
      ({ s with users := updateFirstUser s.users user.id u2 }, .ok u2)
    else (s, .ok user)
  | some cid =>
    if !cid.isEmpty && !isValidObjectId cid then
      (s, .err { status := 400, detail := "Invalid company id" })
    else if !isValidObjectId cid then
      (s, .crash)
    else
      match findCompanyById s cid with
      | none => (s, .err { status := 400, detail := "Company not approved" })
      | some c =>
        if !c.approved then (s, .err { status := 400, detail := "Company not approved" })
        else
          let u2 := { u1 with company_id := some cid, updated_at := now }
          ({ s with users := updateFirstUser s.users user.id u2 }, .ok u2)

/-- The request body of `POST /ranks` (main.py `RankCreateModel`); the date
is kept as its ISO string. -/
structure RankCreateModel where
  rdate : String
  dish : String
  rating : Int
  comment : Option String
  image_url : Option String
deriving DecidableEq, Repr

/-- The `foodrank` document inserted by `create_rank` (main.py lines
299-311): the posting user's `company_id`, `country`, and
`cafe_name or ""` are snapshotted onto it. -/
def rank_doc (user : UserR) (cid : String) (d : RankCreateModel) (now : Int) : RankR :=
  { user_id := user.id, company_id := cid, cafe_name := pyStrOr user.cafe_name "",
    country := user.country, rdate := d.rdate, dish := d.dish, rating := d.rating,
    image_url := d.image_url, comment := d.comment, created_at := now, updated_at := now }

/-- `create_rank` (main.py lines 291-313).  `if not company_id:` rejects a
missing or empty company id before anything is written; an out-of-range
rating is rejected next; on success the snapshot document is inserted. -/
def create_rank (s : Store) (user : UserR) (d : RankCreateModel) (now : Int) :
    Store × PyResult RankR :=
  match user.company_id with
  | none => (s, .err { status := 400, detail := "User has no company assigned" })
  | some cid =>
    if cid.isEmpty then (s, .err { status := 400, detail := "User has no company assigned" })
    else if d.rating < 1 ∨ d.rating > 5 then
      (s, .err { status := 400, detail := "Rating must be 1-5" })
    else ({ s with ranks := s.ranks ++ [rank_doc user cid d now] }, .ok (rank_doc user cid d now))

/-! ### Concrete data used by witnesses and counterexamples -/

def oid1 : String := "0123456789abcdef01234567"

def oid2 : String := "abcdefabcdefabcdefabcdef"

def demoUser : UserR :=
  { id := oid1, email := "a@b.c", hashed_password := "h", full_name := "A", country := "US",
    company_id := none, cafe_name := none, is_admin := false, created_at := 0, updated_at := 0 }

def tokBadKey : JwtToken := { sub := none, exp := none, key := "wrong" }

def tokNoSub : JwtToken := { sub := none, exp := none, key := SECRET_KEY }

def tokGhost : JwtToken := { sub := some oid2, exp := none, key := SECRET_KEY }

def tokBadSub : JwtToken := { sub := some "zz", exp := none, key := SECRET_KEY }

def tokBadSubLive : JwtToken := { sub := some "not-an-id", exp := some 99999, key := SECRET_KEY }

/-! ### Claims -/

/-- Claim C1, counterexample.  A token whose signature verifies and whose
`sub` claim is present but is not a well-formed object id makes
`get_current_user` raise an uncaught `bson.errors.InvalidId` from
`ObjectId(user_id)` (main.py line 123) — a failure distinguishable from
the uniform 401 `credentials_exception`, contradicting the claim that no
input reaching this operation produces a distinguishable failure. -/
theorem claim_C1_cex :
    decodeJwt tokBadSubLive SECRET_KEY 0 = some (some "not-an-id") ∧
    get_current_user emptyStore tokBadSubLive 0 = .crash ∧
    (PyResult.crash : PyResult UserR) ≠ PyResult.err credentials_exception :=
  ⟨by decide, by decide, by decide⟩

/-- Claim C1, amended.  Identity resolution fails with the same 401
`credentials_exception` when the signature does not verify, when the
`sub` claim is absent, and when a well-formed subject id resolves to no
stored user; but a verified token whose subject id is present and not a
well-formed object id instead raises an uncaught exception (a
distinguishable failure). -/
theorem claim_C1 (s : Store) (tok : JwtToken) (now : Int) :
    (tok.key ≠ SECRET_KEY → get_current_user s tok now = .err credentials_exception) ∧
    (decodeJwt tok SECRET_KEY now = some none →
      get_current_user s tok now = .err credentials_exception) ∧
    (∀ uid, decodeJwt tok SECRET_KEY now = some (some uid) → isValidObjectId uid = true →
      findUserById s uid = none → get_current_user s tok now = .err credentials_exception) ∧
    (∀ uid, decodeJwt tok SECRET_KEY now = some (some uid) → isValidObjectId uid = false →
      get_current_user s tok now = .crash) := by
  refine ⟨?_, ?_, ?_, ?_⟩
  · intro h
    have hb : (tok.key == SECRET_KEY) = false := by
      simpa using h
    simp [get_current_user, decodeJwt, hb]
  · intro h
    simp [get_current_user, h]
  · intro uid h hvalid hfind
    simp [get_current_user, h, hvalid, hfind]
  · intro uid h hvalid
    simp [get_current_user, h, hvalid]

theorem claim_C1_witness :
    get_current_user emptyStore tokBadKey 0 = .err credentials_exception ∧
    get_current_user emptyStore tokNoSub 0 = .err credentials_exception ∧
    get_current_user emptyStore tokGhost 0 = .err credentials_exception ∧
    get_current_user emptyStore tokBadSub 0 = .crash :=
  ⟨(claim_C1 emptyStore tokBadKey 0).1 (by decide),
   (claim_C1 emptyStore tokNoSub 0).2.1 (by decide),
   (claim_C1 emptyStore tokGhost 0).2.2.1 oid2 (by decide) (by decide) (by decide),
   (claim_C1 emptyStore tokBadSub 0).2.2.2 "zz" (by decide) (by decide)⟩

/-- Claim C2, counterexample.  A token issued with time-to-live zero is
still valid at (and long after) its issuance instant: Python's
`expires_delta or timedelta(minutes=...)` treats a zero `timedelta` as
falsy, so a zero ttl silently becomes the 24-hour default instead of an
already-expired token, contradicting the claim for T = 0. -/
theorem claim_C2_cex :
    decodeJwt (create_access_token "u" 100 (some 0)) SECRET_KEY 100 = some (some "u") ∧
    (create_access_token "u" 100 (some 0)).exp = some (100 + 86400) :=
  ⟨by decide, by decide⟩

/-- Claim C2, amended.  For every token issued with a nonzero time-to-live
T, validation succeeds strictly before issuance + T and fails with the
401 `credentials_exception` at or after issuance + T (exclusive boundary,
no leeway); the default when no ttl is supplied is 24 hours.  A zero ttl
falls back to the default because a zero duration is falsy in Python. -/
theorem claim_C2 (subject : String) (t0 T t : Int) (s : Store) (hT : T ≠ 0) :
    (t < t0 + T →
      decodeJwt (create_access_token subject t0 (some T)) SECRET_KEY t = some (some subject)) ∧
    (t0 + T ≤ t →
      get_current_user s (create_access_token subject t0 (some T)) t = .err credentials_exception) ∧
    (create_access_token subject t0 none).exp = some (t0 + 60 * 60 * 24) := by
  have hT0 : (T == 0) = false := by
    simpa using hT
  refine ⟨?_, ?_, ?_⟩
  · intro h
    simp [create_access_token, hT0, decodeJwt]
    omega
  · intro h
    simp [get_current_user, decodeJwt, create_access_token, hT0, h]
  · simp [create_access_token, ACCESS_TOKEN_EXPIRE_MINUTES]

theorem claim_C2_witness :
    decodeJwt (create_access_token "u" 0 (some 10)) SECRET_KEY 9 = some (some "u") ∧
    get_current_user emptyStore (create_access_token "u" 0 (some 10)) 10 =
      .err credentials_exception ∧
    (create_access_token "u" 0 none).exp = some (0 + 60 * 60 * 24) :=
  ⟨(claim_C2 "u" 0 10 9 emptyStore (by decide)).1 (by decide),
   (claim_C2 "u" 0 10 10 emptyStore (by decide)).2.1 (by decide),
   (claim_C2 "u" 0 10 0 emptyStore (by decide)).2.2⟩

/-- Claim C3, code bug.  A profile update supplying `company_id = ""`
slips past `if data.company_id and not ObjectId.is_valid(...)` because the
empty string is falsy, and then `ObjectId("")` (main.py line 262) raises
an uncaught `InvalidId`: the request crashes (a 500) instead of failing
with the 400 "Invalid company id" that the claim requires for every
ill-formed id.  The store is untouched by the crashed request. -/
theorem claim_C3_bug :
    update_profile emptyStore demoUser
        { country := none, company_id := some "", cafe_name := none, full_name := none } 7 =
      (emptyStore, .crash) ∧
    (PyResult.crash : PyResult UserR) ≠
      PyResult.err { status := 400, detail := "Invalid company id" } :=
  ⟨by decide, by decide⟩

def acme : CompanyCreateModel := { name := "Acme", country := "US" }

def acmeRec : CompanyR :=
  { id := oid2, name := "Acme", country := "US", approved := false, created_by := none,
    created_at := 0, updated_at := 0 }

def storeWithAcme : Store := { emptyStore with companies := [acmeRec] }

def acmeByAdmin : CompanyR :=
  { id := oid1, name := "Acme", country := "US", approved := false,
    created_by := some demoUser.id, created_at := 0, updated_at := 0 }

/-- Claim C4.  Company creation conflicts (400 "Company already exists")
exactly when a company with the same name and country is already stored,
and a successfully created record is approved iff its creator is admin. -/
theorem claim_C4 (s : Store) (user : UserR) (d : CompanyCreateModel) (freshId : String)
    (now : Int) :
    ((create_company s user d freshId now).2 =
        PyResult.err { status := 400, detail := "Company already exists" } ↔
      (findCompanyByNameCountry s d.name d.country).isSome = true) ∧
    (∀ c, (create_company s user d freshId now).2 = PyResult.ok c →
      c.approved = user.is_admin) := by
  cases h : findCompanyByNameCountry s d.name d.country with
  | some c0 =>
    refine ⟨by simp [create_company, h], ?_⟩
    intro c hc
    simp [create_company, h] at hc
  | none =>
    refine ⟨by simp [create_company, h], ?_⟩
    intro c hc
    simp [create_company, h] at hc
    rw [← hc]

theorem claim_C4_witness :
    (create_company storeWithAcme demoUser acme oid1 0).2 =
      PyResult.err { status := 400, detail := "Company already exists" } ∧
    acmeByAdmin.approved = demoUser.is_admin :=
  ⟨(claim_C4 storeWithAcme demoUser acme oid1 0).1.mpr (by decide),
   (claim_C4 emptyStore demoUser acme oid1 0).2 acmeByAdmin (by decide)⟩

def weirdCo : CompanyR :=
  { id := oid2, name := "", country := "US", approved := true, created_by := none,
    created_at := 0, updated_at := 0 }

def storeWithWeirdCo : Store := { emptyStore with companies := [weirdCo] }

def regEmptyRef : RegisterModel :=
  { email := "a@b.c", password := "p", full_name := "A", country := "US",
    company := some "", cafe_name := none }

/-- Claim C5, counterexample.  A registration whose company reference is
the empty string exactly matches a stored company named `""` — yet the
new user's `company_id` is left empty, because `if payload.company:`
(main.py line 149) treats the empty string as no reference at all and
skips the lookup, contradicting the claim for this matching reference. -/
theorem claim_C5_cex :
    findCompanyByName storeWithWeirdCo "" = some weirdCo ∧
    (((register storeWithWeirdCo regEmptyRef oid1 0).1).users.map fun u => u.company_id) =
      [none] ∧
    (none : Option String) ≠ some weirdCo.id :=
  ⟨by decide, by decide, by decide⟩

/-- Claim C5, amended.  For every registration whose company reference is
nonempty (an empty-string reference is falsy in Python and treated as
absent) and matches an existing company — by well-formed id, or by exact
name when the id lookup yields nothing — the newly inserted user's
`company_id` is that company's id regardless of its approval state, and
no pending request is created. -/
theorem claim_C5 (s : Store) (p : RegisterModel) (freshId : String) (now : Int)
    (ref : String) (c : CompanyR)
    (hc : p.company = some ref) (hne : ref ≠ "")
    (hfree : findUserByEmail s p.email = none)
    (hmatch : (isValidObjectId ref = true ∧ findCompanyById s ref = some c) ∨
      ((if isValidObjectId ref then findCompanyById s ref else none) = none ∧
        findCompanyByName s ref = some c)) :
    ∃ u tok, (register s p freshId now).2 = PyResult.ok tok ∧
      (register s p freshId now).1.users = s.users ++ [u] ∧
      u.company_id = some c.id ∧
      (register s p freshId now).1.pending = s.pending := by
  have hE : ref.isEmpty = false := by
    cases hb : ref.isEmpty
    · rfl
    · exact absurd ((String.isEmpty_iff ref).mp hb) hne
  have hres : registerCompanyResolution s ref p.country now = (some c.id, s.pending) := by
    rcases hmatch with ⟨hv, hid⟩ | ⟨hnid, hname⟩
    · simp [registerCompanyResolution, hv, hid]
    · simp only [registerCompanyResolution]
      rw [hnid, hname]
  have hreg : register s p freshId now =
      ({ s with users := s.users ++ [user_doc p freshId (some c.id) now],
                pending := s.pending },
       PyResult.ok (create_access_token freshId now none)) := by
    simp [register, hfree, hc, hE, hres]
  exact ⟨user_doc p freshId (some c.id) now, create_access_token freshId now none,
         by rw [hreg], by rw [hreg], rfl, by rw [hreg]⟩

theorem claim_C5_witness :
    ∃ u tok,
      (register storeWithAcme
          { email := "b@b.c", password := "p", full_name := "B", country := "US",
            company := some "Acme", cafe_name := none } oid1 0).2 = PyResult.ok tok ∧
      (register storeWithAcme
          { email := "b@b.c", password := "p", full_name := "B", country := "US",
            company := some "Acme", cafe_name := none } oid1 0).1.users =
        storeWithAcme.users ++ [u] ∧
      u.company_id = some acmeRec.id ∧
      (register storeWithAcme
          { email := "b@b.c", password := "p", full_name := "B", country := "US",
            company := some "Acme", cafe_name := none } oid1 0).1.pending =
        storeWithAcme.pending :=
  claim_C5 storeWithAcme
    { email := "b@b.c", password := "p", full_name := "B", country := "US",
      company := some "Acme", cafe_name := none } oid1 0 "Acme" acmeRec
    (by decide) (by decide) (by decide) (Or.inr ⟨by decide, by decide⟩)

/-- Claim C6, counterexample.  A registration whose company reference is
the empty string matches no stored company and no pending request, yet no
`PendingCompanyRequest` is created (the claim requires exactly one): the
`if payload.company:` guard treats `""` as no reference. -/
theorem claim_C6_cex :
    emptyStore.companies = [] ∧ emptyStore.pending = [] ∧
    ((register emptyStore regEmptyRef oid1 0).1).pending = [] ∧
    (((register emptyStore regEmptyRef oid1 0).1).users.map fun u => u.company_id) = [none] ∧
    (register emptyStore regEmptyRef oid1 0).2 =
      PyResult.ok (create_access_token oid1 0 none) :=
  ⟨by decide, by decide, by decide, by decide, by decide⟩

/-- Claim C6, amended.  For every registration whose company reference is
nonempty (`""` is treated as absent) and matches no existing company by
id or exact name — and no existing pending request — registration
succeeds, exactly one new `PendingCompanyRequest` is appended (unapproved,
requester unset), and the new user's `company_id` is empty. -/
theorem claim_C6 (s : Store) (p : RegisterModel) (freshId : String) (now : Int)
    (ref : String)
    (hc : p.company = some ref) (hne : ref ≠ "")
    (hfree : findUserByEmail s p.email = none)
    (hnid : (if isValidObjectId ref then findCompanyById s ref else none) = none)
    (hname : findCompanyByName s ref = none)
    (_hnopending : ∀ r ∈ s.pending, r.name ≠ ref) :
    ∃ u tok, (register s p freshId now).2 = PyResult.ok tok ∧
      (register s p freshId now).1.users = s.users ++ [u] ∧
      u.company_id = none ∧
      (register s p freshId now).1.pending = s.pending ++ [pending_doc ref p.country now] ∧
      (pending_doc ref p.country now).approved = false ∧
      (pending_doc ref p.country now).requested_by = none := by
  have hE : ref.isEmpty = false := by
    cases hb : ref.isEmpty
    · rfl
    · exact absurd ((String.isEmpty_iff ref).mp hb) hne
  have hres : registerCompanyResolution s ref p.country now =
      (none, s.pending ++ [pending_doc ref p.country now]) := by
    simp only [registerCompanyResolution]
    rw [hnid, hname]
  have hreg : register s p freshId now =
      ({ s with users := s.users ++ [user_doc p freshId none now],
                pending := s.pending ++ [pending_doc ref p.country now] },
       PyResult.ok (create_access_token freshId now none)) := by
    simp [register, hfree, hc, hE, hres]
  exact ⟨user_doc p freshId none now, create_access_token freshId now none,
         by rw [hreg], by rw [hreg], rfl, by rw [hreg], rfl, rfl⟩

theorem claim_C6_witness :
    ∃ u tok,
      (register emptyStore
          { email := "b@b.c", password := "p", full_name := "B", country := "US",
            company := some "NewCo", cafe_name := none } oid1 5).2 = PyResult.ok tok ∧
      (register emptyStore
          { email := "b@b.c", password := "p", full_name := "B", country := "US",
            company := some "NewCo", cafe_name := none } oid1 5).1.users =
        emptyStore.users ++ [u] ∧
      u.company_id = none ∧
      (register emptyStore
          { email := "b@b.c", password := "p", full_name := "B", country := "US",
            company := some "NewCo", cafe_name := none } oid1 5).1.pending =
        emptyStore.pending ++ [pending_doc "NewCo" "US" 5] ∧
      (pending_doc "NewCo" "US" 5).approved = false ∧
      (pending_doc "NewCo" "US" 5).requested_by = none :=
  claim_C6 emptyStore
    { email := "b@b.c", password := "p", full_name := "B", country := "US",
      company := some "NewCo", cafe_name := none } oid1 5 "NewCo"
    (by decide) (by decide) (by decide) (by decide) (by decide) (by simp [emptyStore])

def demoRank : RankCreateModel :=
  { rdate := "2026-01-02", dish := "soup", rating := 3, comment := none, image_url := none }

def userNoCompany : UserR := demoUser

def userEmptyCompany : UserR := { demoUser with company_id := some "" }

def userWithCompany : UserR := { demoUser with company_id := some oid2 }

/-- Claim C7.  Rank creation by a user whose `company_id` is missing or
empty fails with the 400 "User has no company assigned" and returns the
store exactly as it was: nothing is written by the failed request. -/
theorem claim_C7 (s : Store) (user : UserR) (d : RankCreateModel) (now : Int)
    (h : user.company_id = none ∨ user.company_id = some "") :
    create_rank s user d now =
      (s, PyResult.err { status := 400, detail := "User has no company assigned" }) := by
  rcases h with h | h
  · simp [create_rank, h]
  · have he : ("" : String).isEmpty = true := rfl
    simp [create_rank, h, he]

theorem claim_C7_witness :
    create_rank emptyStore userNoCompany demoRank 0 =
      (emptyStore, PyResult.err { status := 400, detail := "User has no company assigned" }) ∧
    create_rank emptyStore userEmptyCompany demoRank 0 =
      (emptyStore, PyResult.err { status := 400, detail := "User has no company assigned" }) :=
  ⟨claim_C7 emptyStore userNoCompany demoRank 0 (Or.inl (by decide)),
   claim_C7 emptyStore userEmptyCompany demoRank 0 (Or.inr (by decide))⟩

/-- Claim C8.  For a user with a company assigned, rank creation succeeds
exactly when the rating lies in the inclusive range [1, 5]; any rating
outside it — in particular 0 and 6 — fails with the 400 "Rating must be
1-5", while 1 and 5 succeed. -/
theorem claim_C8 (s : Store) (user : UserR) (d : RankCreateModel) (now : Int) (cid : String)
    (h : user.company_id = some cid) (hne : cid ≠ "") :
    ((∃ r, (create_rank s user d now).2 = PyResult.ok r) ↔ 1 ≤ d.rating ∧ d.rating ≤ 5) ∧
    (d.rating < 1 ∨ 5 < d.rating →
      (create_rank s user d now).2 = PyResult.err { status := 400, detail := "Rating must be 1-5" }) := by
  have hE : cid.isEmpty = false := by
    cases hb : cid.isEmpty
    · rfl
    · exact absurd ((String.isEmpty_iff cid).mp hb) hne
  by_cases hr : d.rating < 1 ∨ d.rating > 5
  · constructor
    · simp [create_rank, h, hE, hr]
      omega
    · intro _
      simp [create_rank, h, hE, hr]
  · constructor
    · simp [create_rank, h, hE, hr]
      omega
    · intro hcontra
      exact absurd hcontra hr

theorem claim_C8_witness :
    ((∃ r, (create_rank emptyStore userWithCompany
        { demoRank with rating := 1 } 0).2 = PyResult.ok r)) ∧
    ((∃ r, (create_rank emptyStore userWithCompany
        { demoRank with rating := 5 } 0).2 = PyResult.ok r)) ∧
    (create_rank emptyStore userWithCompany { demoRank with rating := 0 } 0).2 =
      PyResult.err { status := 400, detail := "Rating must be 1-5" } ∧
    (create_rank emptyStore userWithCompany { demoRank with rating := 6 } 0).2 =
      PyResult.err { status := 400, detail := "Rating must be 1-5" } :=
  ⟨(claim_C8 emptyStore userWithCompany { demoRank with rating := 1 } 0 oid2
      (by decide) (by decide)).1.mpr (by decide),
   (claim_C8 emptyStore userWithCompany { demoRank with rating := 5 } 0 oid2
      (by decide) (by decide)).1.mpr (by decide),
   (claim_C8 emptyStore userWithCompany { demoRank with rating := 0 } 0 oid2
      (by decide) (by decide)).2 (by decide),
   (claim_C8 emptyStore userWithCompany { demoRank with rating := 6 } 0 oid2
      (by decide) (by decide)).2 (by decide)⟩

/-- The `foodrank` document that `create_rank` inserts for
`userWithCompany` (whose `cafe_name` is `None`). -/
def rankSnapshotNone : RankR :=
  { user_id := oid1, company_id := oid2, cafe_name := "", country := "US",
    rdate := "2026-01-02", dish := "soup", rating := 3, image_url := none, comment := none,
    created_at := 0, updated_at := 0 }

/-- Claim C9, counterexample.  A user whose profile `cafe_name` is `None`
gets a rank whose stored `cafe_name` is `""` — `user.get("cafe_name") or
""` (main.py line 302) coalesces a missing cafe name to the empty string,
so the stored field does not equal the profile value. -/
theorem claim_C9_cex :
    (create_rank emptyStore userWithCompany demoRank 0).2 = PyResult.ok rankSnapshotNone ∧
    some rankSnapshotNone.cafe_name ≠ userWithCompany.cafe_name :=
  ⟨by decide, by decide⟩

/-- Claim C9, amended.  Every successfully stored rank snapshots the
posting user's profile at creation time: `company_id` and `country` are
copied verbatim, and `cafe_name` is the user's cafe name when set, with a
missing (`None`) cafe name coalesced to the empty string. -/
theorem claim_C9 (s : Store) (user : UserR) (d : RankCreateModel) (now : Int) (cid : String)
    (h : user.company_id = some cid) (hne : cid ≠ "")
    (hr : 1 ≤ d.rating ∧ d.rating ≤ 5) :
    ∃ r, (create_rank s user d now).2 = PyResult.ok r ∧
      (create_rank s user d now).1.ranks = s.ranks ++ [r] ∧
      r.company_id = cid ∧ r.country = user.country ∧
      r.cafe_name = pyStrOr user.cafe_name "" := by
  have hE : cid.isEmpty = false := by
    cases hb : cid.isEmpty
    · rfl
    · exact absurd ((String.isEmpty_iff cid).mp hb) hne
  have hrr : ¬(d.rating < 1 ∨ d.rating > 5) := by omega
  have hcr : create_rank s user d now =
      ({ s with ranks := s.ranks ++ [rank_doc user cid d now] },
       PyResult.ok (rank_doc user cid d now)) := by
    simp [create_rank, h, hE, hrr]
  exact ⟨rank_doc user cid d now, by rw [hcr], by rw [hcr], rfl, rfl, rfl⟩

theorem claim_C9_witness :
    ∃ r, (create_rank emptyStore { userWithCompany with cafe_name := some "Cafe 9" }
        demoRank 0).2 = PyResult.ok r ∧
      (create_rank emptyStore { userWithCompany with cafe_name := some "Cafe 9" }
        demoRank 0).1.ranks = emptyStore.ranks ++ [r] ∧
      r.company_id = oid2 ∧
      r.country = ({ userWithCompany with cafe_name := some "Cafe 9" } : UserR).country ∧
      r.cafe_name =
        pyStrOr ({ userWithCompany with cafe_name := some "Cafe 9" } : UserR).cafe_name "" :=
  claim_C9 emptyStore { userWithCompany with cafe_name := some "Cafe 9" } demoRank 0 oid2
    (by decide) (by decide) (by decide)

/-- Rewrite every stored user's password hash with `f`, leaving all other
fields alone: the relational image used to state hash-noninterference. -/
def mapUserHashes (f : String → String) (s : Store) : Store :=
  { s with users := s.users.map fun u => { u with hashed_password := f u.hashed_password } }

theorem find?_hashMap (f : String → String) (l : List UserR) (uid : String) :
    (l.map fun u => { u with hashed_password := f u.hashed_password }).find?
        (fun u => u.id == uid) =
      (l.find? fun u => u.id == uid).map
        fun u => { u with hashed_password := f u.hashed_password } := by
  induction l with
  | nil => rfl
  | cons a t ih =>
    cases hpa : (a.id == uid) with
    | true =>
      have hm : (({ a with hashed_password := f a.hashed_password } : UserR).id == uid)
          = true := hpa
      simp only [List.map_cons, List.find?, hm, hpa]
      rfl
    | false =>
      have hm : (({ a with hashed_password := f a.hashed_password } : UserR).id == uid)
          = false := hpa
      simp only [List.map_cons, List.find?, hm, hpa]
      exact ih

theorem findUserById_mapUserHashes (f : String → String) (s : Store) (uid : String) :
    findUserById (mapUserHashes f s) uid =
      (findUserById s uid).map fun u => { u with hashed_password := f u.hashed_password } := by
  simp only [findUserById, mapUserHashes]
  exact find?_hashMap f s.users uid

theorem get_current_user_mapUserHashes (f : String → String) (s : Store) (tok : JwtToken)
    (now : Int) :
    get_current_user (mapUserHashes f s) tok now =
      match get_current_user s tok now with
      | .ok u => .ok { u with hashed_password := f u.hashed_password }
      | .err e => .err e
      | .crash => .crash := by
  unfold get_current_user
  cases decodeJwt tok SECRET_KEY now with
  | none => rfl
  | some subClaim =>
    cases subClaim with
    | none => rfl
    | some uid =>
      dsimp only
      by_cases hv : isValidObjectId uid
      · rw [if_pos hv, if_pos hv, findUserById_mapUserHashes]
        cases findUserById s uid <;> rfl
      · rw [if_neg hv, if_neg hv]

/-- Claim C10.  The serialized profile is independent of the stored
password hash: `serialize_user` gives identical output on user records
that differ only in `hashed_password`, and the `/auth/me` and
`/user/profile` endpoints are unchanged under any rewriting of every
stored hash — the hash never influences (in particular never appears in)
a response. -/
theorem claim_C10 :
    (∀ (u : UserR) (p q : String),
      serialize_user (some { u with hashed_password := p }) =
        serialize_user (some { u with hashed_password := q })) ∧
    (∀ (f : String → String) (s : Store) (tok : JwtToken) (now : Int),
      me (mapUserHashes f s) tok now = me s tok now ∧
      get_profile (mapUserHashes f s) tok now = get_profile s tok now) := by
  constructor
  · intro u p q
    rfl
  · intro f s tok now
    constructor <;>
    · simp only [me, get_profile, get_current_user_mapUserHashes]
      cases get_current_user s tok now <;> rfl

end FoodRankr
